import Mathlib

/-!
Shallow embedding of `src/detection_service/main.py` (YOLOv8 detection
service): the `YOLODetector` class, the lazy singleton `get_detector`,
and the Flask routes `/health` and `/detect`.

Python dict/JSON values are embedded as `JsonValue`; Python exceptions
as `PyExn`; a Python call that may raise as `PyResult`.  The opaque
external model call `self.model(image_path)` is passed to `detect` as
an oracle argument (its outcome for this call), and the filesystem
check `os.path.exists(image_path)` as a boolean argument.  Floats
(confidences, box coordinates, times) are embedded as rationals: every
claim about them is purely order/equality based.
-/

/-- A JSON value as produced by Flask's `jsonify` on the Python dicts of
the service.  Objects keep their key order (Python dicts preserve
insertion order). -/
inductive JsonValue where
  | null : JsonValue
  | bool (b : Bool) : JsonValue
  | num (q : ℚ) : JsonValue
  | str (s : String) : JsonValue
  | arr (elems : List JsonValue) : JsonValue
  | obj (fields : List (String × JsonValue)) : JsonValue

/-- Lookup of a key in a JSON object (first match), `none` for
non-objects or absent keys: the embedding of `d[k]` / `k in d`. -/
def JsonValue.get : JsonValue → String → Option JsonValue
  | .obj fields, key => fields.lookup key
  | _, _ => none

/-- One raw candidate returned by the model for one image: the
`(box, conf, cls)` triple of the zip over `result.boxes.xyxy`,
`result.boxes.conf`, `result.boxes.cls`. -/
structure RawBox where
  x1 : ℚ
  y1 : ℚ
  x2 : ℚ
  y2 : ℚ
  conf : ℚ
  cls : ℕ
deriving DecidableEq

/-- One element of the `results` list returned by the model call.
`boxes = none` embeds `result.boxes is None`; `names` is the model's
label table `result.names` (class index → class name). -/
structure YoloResult where
  boxes : Option (List RawBox)
  names : ℕ → String

/-- A Python exception, as far as this service distinguishes them:
`FileNotFoundError(msg)` raised by `detect`, or any other exception
(whatever the model raises). -/
inductive PyExn where
  | fileNotFoundError (msg : String) : PyExn
  | other (msg : String) : PyExn
deriving DecidableEq

/-- `str(e)`: the exception's message. -/
def PyExn.message : PyExn → String
  | .fileNotFoundError msg => msg
  | .other msg => msg

/-- Outcome of a Python call: a returned value or a raised exception. -/
inductive PyResult (α : Type) where
  | ret (a : α) : PyResult α
  | exn (e : PyExn) : PyResult α
deriving DecidableEq

/-- The `YOLODetector` object.  Only `confidence_threshold` is carried:
`self.model` is the opaque external dependency, whose behaviour on a
given image is passed to `detect` as the oracle argument `infer`. -/
structure YOLODetector where
  confidence_threshold : ℚ
deriving DecidableEq

/-- The dict appended to `detections` for one kept box: keys
`class`, `class_id`, `confidence`, `bbox` in that order. -/
def detectionJson (names : ℕ → String) (b : RawBox) : JsonValue :=
  .obj [("class", .str (names b.cls)),
        ("class_id", .num b.cls),
        ("confidence", .num b.conf),
        ("bbox", .obj [("x1", .num b.x1), ("y1", .num b.y1),
                       ("x2", .num b.x2), ("y2", .num b.y2)])]

/-- One iteration of the inner `for box, conf, cls in zip(...)` loop of
`detect`, on the `(detections, total_objects)` accumulator: the box is
appended, and the counter incremented, iff
`conf >= self.confidence_threshold`. -/
def boxStep (thr : ℚ) (names : ℕ → String) (acc : List JsonValue × ℕ)
    (b : RawBox) : List JsonValue × ℕ :=
  if thr ≤ b.conf then (acc.1 ++ [detectionJson names b], acc.2 + 1) else acc

/-- The inner loop of `detect` over one result's boxes. -/
def boxLoop (thr : ℚ) (names : ℕ → String) (boxes : List RawBox)
    (acc : List JsonValue × ℕ) : List JsonValue × ℕ :=
  boxes.foldl (boxStep thr names) acc

/-- One iteration of the outer `for result in results` loop of
`detect`: the inner loop runs only under
`result.boxes is not None and len(result.boxes) > 0`. -/
def resultStep (thr : ℚ) (acc : List JsonValue × ℕ) (r : YoloResult) :
    List JsonValue × ℕ :=
  match r.boxes with
  | some bs => if bs.length > 0 then boxLoop thr r.names bs acc else acc
  | none => acc

/-- The outer loop of `detect`, starting from
`detections = []`, `total_objects = 0`. -/
def resultsLoop (thr : ℚ) (results : List YoloResult) : List JsonValue × ℕ :=
  results.foldl (resultStep thr) ([], 0)

/-- `round(x, 2)` on the elapsed milliseconds: round half away from
zero to 2 decimals is immaterial to every claim, so the elapsed time is
passed to `detect` already in milliseconds and rounded here to the
grid of hundredths via the floor-based rational rounding. -/
def round2 (q : ℚ) : ℚ := (round (q * 100) : ℤ) / 100

/-- `YOLODetector.detect(self, image_path)`.

`file_exists` embeds `os.path.exists(image_path)`; `infer` the outcome
of the opaque call `self.model(image_path, verbose=False)`;
`elapsed_ms` the measured wall-clock duration in milliseconds.

The `FileNotFoundError` raise sits before the `try:` block, so it
escapes `detect`; everything the model call raises is caught by the
broad `except Exception` and converted to the failure dict. -/
def YOLODetector.detect (d : YOLODetector) (image_path : String)
    (file_exists : Bool) (infer : PyResult (List YoloResult))
    (elapsed_ms : ℚ) : PyResult JsonValue :=
  if ¬ file_exists then
    .exn (.fileNotFoundError ("Image not found: " ++ image_path))
  else
    match infer with
    | .ret results =>
        let acc := resultsLoop d.confidence_threshold results
        .ret (.obj [("success", .bool true),
                    ("image_path", .str image_path),
                    ("detections", .arr acc.1),
                    ("total_objects", .num acc.2),
                    ("processing_time_ms", .num (round2 elapsed_ms)),
                    ("model_confidence_threshold", .num d.confidence_threshold)])
    | .exn e =>
        .ret (.obj [("success", .bool false),
                    ("error", .str e.message),
                    ("image_path", .str image_path)])

/-- The raw candidates of one result in model output order, `[]` when
`boxes is None` (mirroring the guard of the outer loop). -/
def YoloResult.candidates (r : YoloResult) : List ((ℕ → String) × RawBox) :=
  match r.boxes with
  | some bs => bs.map (fun b => (r.names, b))
  | none => []

/-- All raw candidates of an inference outcome, in model output order,
each paired with its result's label table. -/
def allCandidates (results : List YoloResult) : List ((ℕ → String) × RawBox) :=
  results.flatMap YoloResult.candidates

/-- The candidates surviving the confidence filter at threshold `thr`,
in model output order. -/
def keptCandidates (thr : ℚ) (results : List YoloResult) :
    List ((ℕ → String) × RawBox) :=
  (allCandidates results).filter (fun c => thr ≤ c.2.conf)

/-- The surviving candidates in the dict shape `detect` appends. -/
def keptJson (thr : ℚ) (results : List YoloResult) : List JsonValue :=
  (keptCandidates thr results).map (fun c => detectionJson c.1 c.2)

/-- The dict `detect` returns on a successful inference: the explicit
form its `success=True` branch computes. -/
def successJson (thr : ℚ) (image_path : String) (results : List YoloResult)
    (elapsed_ms : ℚ) : JsonValue :=
  .obj [("success", .bool true),
        ("image_path", .str image_path),
        ("detections", .arr (keptJson thr results)),
        ("total_objects", .num ((keptCandidates thr results).length)),
        ("processing_time_ms", .num (round2 elapsed_ms)),
        ("model_confidence_threshold", .num thr)]

/-- The dict `detect` returns from its `except Exception` handler. -/
def failureJson (e : PyExn) (image_path : String) : JsonValue :=
  .obj [("success", .bool false),
        ("error", .str e.message),
        ("image_path", .str image_path)]

/-- The process-wide service state: the module-level global
`detector`, `None` until first successful lazy initialization. -/
structure ServiceState where
  detector : Option YOLODetector
deriving DecidableEq

/-- `get_detector()`: the lazy initialization guard.

`construct` is the outcome of `YOLODetector(model_path=..., confidence_threshold=...)`
for this call (the constructor may raise, e.g. on a model load
failure).  Returns the call's outcome and the global state afterwards:
if the constructor raises, the assignment `detector = ...` never runs,
so the global stays `None`. -/
def get_detector (st : ServiceState) (construct : PyResult YOLODetector) :
    PyResult YOLODetector × ServiceState :=
  match st.detector with
  | some d => (.ret d, st)
  | none =>
      match construct with
      | .ret d => (.ret d, ⟨some d⟩)
      | .exn e => (.exn e, ⟨none⟩)

/-- An HTTP response: status code and JSON body.  `jsonify(d)` alone is
status 200; `jsonify(d), c` is status `c`. -/
structure HttpResponse where
  status : ℕ
  body : JsonValue

/-- `GET /health` (`health_check`): reads the global `detector`
without calling `get_detector`, and returns the state unchanged. -/
def health_check (st : ServiceState) : HttpResponse × ServiceState :=
  (⟨200, .obj [("status", .str "healthy"),
               ("service", .str "yolo-detection-service"),
               ("model_loaded", .bool st.detector.isSome)]⟩, st)

/-- The parsed request body as seen by the `/detect` route:
`request.get_json()` may raise (malformed body: caught by the route's
broad `except` → 500), return `None` (no JSON body), or return a JSON
object, embedded as its key/value list; the claims only concern bodies
whose `image_path` value, when present, is a string, so values are
embedded as strings. -/
abbrev RequestBody := PyResult (Option (List (String × String)))

/-- `if not data or 'image_path' not in data`: `data` is falsy
(`None` or the empty dict) or has no `image_path` key. -/
def missingImagePath (data : Option (List (String × String))) : Bool :=
  match data with
  | none => true
  | some fields => fields.isEmpty || (fields.lookup "image_path").isNone

/-- The 400 response of the `/detect` route for a missing field. -/
def missingFieldResponse : HttpResponse :=
  ⟨400, .obj [("success", .bool false),
              ("error", .str "Missing image_path in request")]⟩

/-- The 500 response of the `/detect` route's broad `except Exception`
handler. -/
def requestFailedResponse (e : PyExn) : HttpResponse :=
  ⟨500, .obj [("success", .bool false),
              ("error", .str ("Request processing failed: " ++ e.message))]⟩

/-- The body of the `/detect` route once `det = get_detector()` has
succeeded: read the body, validate the `image_path` field, call
`det.detect`, and translate; exceptions out of `get_json` or
`det.detect` land in the broad `except` (500). -/
def handle_request (det : YOLODetector) (body : RequestBody)
    (file_exists : Bool) (infer : PyResult (List YoloResult))
    (elapsed_ms : ℚ) : HttpResponse :=
  match body with
  | .exn e => requestFailedResponse e
  | .ret data =>
      if missingImagePath data then
        missingFieldResponse
      else
        match data.bind (fun fields => fields.lookup "image_path") with
        | none => missingFieldResponse
        | some image_path =>
            match det.detect image_path file_exists infer elapsed_ms with
            | .ret result => ⟨200, result⟩
            | .exn e => requestFailedResponse e

/-- `POST /detect` (the `detect` route).

Oracles for the call: `construct` (outcome of the `YOLODetector`
constructor, consumed only if the singleton is uninitialized), `body`
(outcome of `request.get_json()`), `file_exists`, `infer` and
`elapsed_ms` (consumed only if `det.detect` runs).  The route calls
`get_detector()` first, before reading or validating the body; every
exception raised inside the handler — constructor failure, body parse
failure, or the `FileNotFoundError` out of `det.detect` — is caught by
the one broad `except` and turned into the 500 response. -/
def detect_route (st : ServiceState) (construct : PyResult YOLODetector)
    (body : RequestBody) (file_exists : Bool)
    (infer : PyResult (List YoloResult)) (elapsed_ms : ℚ) :
    HttpResponse × ServiceState :=
  match get_detector st construct with
  | (.exn e, st') => (requestFailedResponse e, st')
  | (.ret det, st') => (handle_request det body file_exists infer elapsed_ms, st')

/-- A concrete raw candidate box for instantiations. -/
def sampleBox : RawBox := ⟨0, 0, 1, 1, 1/2, 0⟩

/-- A concrete label table for instantiations. -/
def sampleNames : ℕ → String := fun _ => "person"

/-- A concrete model result with one box for instantiations. -/
def sampleResult : YoloResult := ⟨some [sampleBox], sampleNames⟩

/-- A concrete detector at the default threshold 0.5. -/
def sampleDetector : YOLODetector := ⟨1/2⟩

/-! ### Characterization of the two accumulation loops -/

theorem boxLoop_eq (thr : ℚ) (names : ℕ → String) (boxes : List RawBox)
    (acc : List JsonValue × ℕ) :
    boxLoop thr names boxes acc =
      (acc.1 ++ (boxes.filter (fun b => thr ≤ b.conf)).map (detectionJson names),
       acc.2 + (boxes.filter (fun b => thr ≤ b.conf)).length) := by
  induction boxes generalizing acc with
  | nil => simp [boxLoop]
  | cons b bs ih =>
      rw [boxLoop, List.foldl_cons, ← boxLoop]
      by_cases h : thr ≤ b.conf
      · rw [ih]
        simp [boxStep, h, List.filter_cons]
        omega
      · rw [ih]
        simp [boxStep, h, List.filter_cons]

theorem candidates_filter_map (thr : ℚ) (names : ℕ → String)
    (bs : List RawBox) :
    ((bs.map (fun b => (names, b))).filter
        (fun c : (ℕ → String) × RawBox => thr ≤ c.2.conf)).map
      (fun c => detectionJson c.1 c.2)
      = (bs.filter (fun b => thr ≤ b.conf)).map (detectionJson names) := by
  induction bs with
  | nil => rfl
  | cons b bs ih =>
      by_cases h : thr ≤ b.conf <;> simp [List.filter_cons, h, ih]

theorem candidates_filter_length (thr : ℚ) (names : ℕ → String)
    (bs : List RawBox) :
    ((bs.map (fun b => (names, b))).filter
        (fun c : (ℕ → String) × RawBox => thr ≤ c.2.conf)).length
      = (bs.filter (fun b => thr ≤ b.conf)).length := by
  induction bs with
  | nil => rfl
  | cons b bs ih =>
      by_cases h : thr ≤ b.conf <;> simp [List.filter_cons, h, ih]

theorem resultStep_eq (thr : ℚ) (acc : List JsonValue × ℕ) (r : YoloResult) :
    resultStep thr acc r =
      (acc.1 ++ (r.candidates.filter (fun c => thr ≤ c.2.conf)).map
          (fun c => detectionJson c.1 c.2),
       acc.2 + (r.candidates.filter (fun c => thr ≤ c.2.conf)).length) := by
  match hr : r.boxes with
  | none => simp [resultStep, hr, YoloResult.candidates]
  | some bs =>
      match bs with
      | [] => simp [resultStep, hr, YoloResult.candidates, boxLoop]
      | b :: bs' =>
          rw [resultStep]
          simp only [hr, List.length_cons, Nat.succ_sub_one, if_pos (Nat.succ_pos _)]
          rw [boxLoop_eq, YoloResult.candidates, hr,
            candidates_filter_map, candidates_filter_length]

theorem keptCandidates_cons (thr : ℚ) (r : YoloResult)
    (rs : List YoloResult) :
    keptCandidates thr (r :: rs) =
      r.candidates.filter (fun c => thr ≤ c.2.conf) ++ keptCandidates thr rs := by
  simp [keptCandidates, allCandidates, List.flatMap_cons, List.filter_append]

theorem resultsLoop_foldl (thr : ℚ) (results : List YoloResult)
    (acc : List JsonValue × ℕ) :
    results.foldl (resultStep thr) acc =
      (acc.1 ++ keptJson thr results,
       acc.2 + (keptCandidates thr results).length) := by
  induction results generalizing acc with
  | nil => simp [keptJson, keptCandidates, allCandidates]
  | cons r rs ih =>
      rw [List.foldl_cons, ih, resultStep_eq]
      simp [keptJson, keptCandidates_cons, List.filter_append, Nat.add_assoc]

theorem resultsLoop_eq (thr : ℚ) (results : List YoloResult) :
    resultsLoop thr results =
      (keptJson thr results, (keptCandidates thr results).length) := by
  rw [resultsLoop, resultsLoop_foldl]
  simp

/-! ### Characterization of `detect` and the route glue -/

theorem detect_success_eq (d : YOLODetector) (image_path : String)
    (results : List YoloResult) (elapsed_ms : ℚ) :
    d.detect image_path true (.ret results) elapsed_ms =
      .ret (successJson d.confidence_threshold image_path results elapsed_ms) := by
  simp [YOLODetector.detect, successJson, resultsLoop_eq]

theorem detect_failure_eq (d : YOLODetector) (image_path : String)
    (e : PyExn) (elapsed_ms : ℚ) :
    d.detect image_path true (.exn e) elapsed_ms =
      .ret (failureJson e image_path) := rfl

theorem detect_not_found (d : YOLODetector) (image_path : String)
    (infer : PyResult (List YoloResult)) (elapsed_ms : ℚ) :
    d.detect image_path false infer elapsed_ms =
      .exn (.fileNotFoundError ("Image not found: " ++ image_path)) := rfl

theorem detect_route_of_ready (st : ServiceState)
    (construct : PyResult YOLODetector) (det : YOLODetector)
    (hdet : (get_detector st construct).1 = .ret det) (body : RequestBody)
    (file_exists : Bool) (infer : PyResult (List YoloResult))
    (elapsed_ms : ℚ) :
    detect_route st construct body file_exists infer elapsed_ms =
      (handle_request det body file_exists infer elapsed_ms,
       (get_detector st construct).2) := by
  match hg : get_detector st construct with
  | (.ret d', st') =>
      rw [hg] at hdet
      cases hdet
      rw [detect_route, hg]
  | (.exn e, st') =>
      rw [hg] at hdet
      exact absurd hdet (by simp)

theorem handle_request_missing (det : YOLODetector)
    (data : Option (List (String × String))) (file_exists : Bool)
    (infer : PyResult (List YoloResult)) (elapsed_ms : ℚ)
    (hmiss : missingImagePath data = true) :
    handle_request det (.ret data) file_exists infer elapsed_ms =
      missingFieldResponse := by
  rw [handle_request, if_pos hmiss]

theorem handle_request_with_path (det : YOLODetector)
    (fields : List (String × String)) (image_path : String)
    (file_exists : Bool) (infer : PyResult (List YoloResult))
    (elapsed_ms : ℚ) (hip : fields.lookup "image_path" = some image_path) :
    handle_request det (.ret (some fields)) file_exists infer elapsed_ms =
      (match det.detect image_path file_exists infer elapsed_ms with
       | .ret result => ⟨200, result⟩
       | .exn e => requestFailedResponse e) := by
  have hne : fields.isEmpty = false := by
    cases fields with
    | nil => simp [List.lookup] at hip
    | cons p l => rfl
  have hmiss : missingImagePath (some fields) = false := by
    simp [missingImagePath, hne, hip]
  rw [handle_request, if_neg (by simp [hmiss])]
  simp [hip]

/-! ### Claim theorems -/

/-- C1: on every successful `detect` call, `detections` is exactly the
subsequence of the model's raw candidates whose confidence is at least
`confidence_threshold`, kept in model output order (no candidate below
the threshold is emitted), and `total_objects` equals the length of
`detections`. -/
theorem C1_detections_filtered_and_counted (d : YOLODetector)
    (image_path : String) (results : List YoloResult) (elapsed_ms : ℚ) :
    ∃ j, d.detect image_path true (.ret results) elapsed_ms = .ret j ∧
      j.get "success" = some (.bool true) ∧
      j.get "detections" =
        some (.arr (keptJson d.confidence_threshold results)) ∧
      j.get "total_objects" =
        some (.num ((keptJson d.confidence_threshold results).length)) ∧
      List.Sublist (keptCandidates d.confidence_threshold results)
        (allCandidates results) ∧
      ∀ c ∈ keptCandidates d.confidence_threshold results,
        d.confidence_threshold ≤ c.2.conf := by
  refine ⟨_, detect_success_eq d image_path results elapsed_ms,
    rfl, rfl, ?_, List.filter_sublist _, ?_⟩
  · have hlen : (keptJson d.confidence_threshold results).length =
        (keptCandidates d.confidence_threshold results).length := by
      simp [keptJson]
    rw [hlen]
    rfl
  · intro c hc
    have hmem := List.mem_filter.mp hc
    simpa using hmem.2

/-- C2 (counterexample): `detect` on a non-existent path raises
`FileNotFoundError` rather than returning a structured failure
result. -/
theorem C2_counterexample :
    (YOLODetector.mk (1/2)).detect "missing.jpg" false (.ret []) 0 =
      .exn (.fileNotFoundError "Image not found: missing.jpg") := rfl

/-- C2 (amended): for a non-existent file `detect` raises
`FileNotFoundError` (the raise sits before the `try` block and escapes
to the caller); it is the inference-layer exceptions that never escape:
they become a `success=false` result. -/
theorem C2_amended (d : YOLODetector) (image_path : String)
    (infer : PyResult (List YoloResult)) (e : PyExn) (elapsed_ms : ℚ) :
    d.detect image_path false infer elapsed_ms =
      .exn (.fileNotFoundError ("Image not found: " ++ image_path)) ∧
    d.detect image_path true (.exn e) elapsed_ms =
      .ret (failureJson e image_path) ∧
    (failureJson e image_path).get "success" = some (.bool false) :=
  ⟨rfl, rfl, rfl⟩

/-- C4: an exception out of the model call on an existing file is
caught: `detect` returns `success=false`, the exception's message
verbatim under `error`, the echoed `image_path`, and none of the
detection fields. -/
theorem C4_inference_failure_shape (d : YOLODetector) (image_path : String)
    (e : PyExn) (elapsed_ms : ℚ) :
    d.detect image_path true (.exn e) elapsed_ms =
      .ret (failureJson e image_path) ∧
    (failureJson e image_path).get "success" = some (.bool false) ∧
    (failureJson e image_path).get "error" = some (.str e.message) ∧
    (failureJson e image_path).get "image_path" = some (.str image_path) ∧
    (failureJson e image_path).get "detections" = none ∧
    (failureJson e image_path).get "total_objects" = none ∧
    (failureJson e image_path).get "processing_time_ms" = none ∧
    (failureJson e image_path).get "model_confidence_threshold" = none :=
  ⟨rfl, rfl, rfl, rfl, rfl, rfl, rfl, rfl⟩

/-- C6 (counterexample): the successful result of a concrete `detect`
call has no `confidence_threshold` key: the threshold sits under
`model_confidence_threshold`. -/
theorem C6_counterexample :
    (YOLODetector.mk (1/2)).detect "img.jpg" true (.ret []) 0 =
      .ret (successJson (1/2) "img.jpg" [] 0) ∧
    (successJson (1/2) "img.jpg" [] 0).get "confidence_threshold" = none ∧
    (successJson (1/2) "img.jpg" [] 0).get "model_confidence_threshold" =
      some (.num (1/2)) :=
  ⟨detect_success_eq _ _ _ _, rfl, rfl⟩

/-- C6 (amended): every successful result carries the active threshold
in the field `model_confidence_threshold` (not `confidence_threshold`),
alongside `success`, `image_path`, `detections`, `total_objects` and
`processing_time_ms`. -/
theorem C6_amended (d : YOLODetector) (image_path : String)
    (results : List YoloResult) (elapsed_ms : ℚ) :
    ∃ j, d.detect image_path true (.ret results) elapsed_ms = .ret j ∧
      j.get "model_confidence_threshold" =
        some (.num d.confidence_threshold) ∧
      j.get "confidence_threshold" = none ∧
      j.get "success" = some (.bool true) ∧
      j.get "image_path" = some (.str image_path) ∧
      (∃ ds, j.get "detections" = some (.arr ds)) ∧
      (∃ n, j.get "total_objects" = some (.num n)) ∧
      (∃ q, j.get "processing_time_ms" = some (.num q)) :=
  ⟨_, detect_success_eq d image_path results elapsed_ms,
    rfl, rfl, rfl, rfl, ⟨_, rfl⟩, ⟨_, rfl⟩, ⟨_, rfl⟩⟩

/-- C7: for a fixed list of raw candidates, raising the threshold never
increases the kept count, and that count is exactly what `detect`
reports as `total_objects` at each threshold. -/
theorem C7_threshold_antitone (results : List YoloResult)
    (image_path : String) (elapsed_ms : ℚ) (t1 t2 : ℚ) (h : t1 ≤ t2) :
    (keptCandidates t2 results).length ≤ (keptCandidates t1 results).length ∧
    (YOLODetector.mk t1).detect image_path true (.ret results) elapsed_ms =
      .ret (successJson t1 image_path results elapsed_ms) ∧
    (YOLODetector.mk t2).detect image_path true (.ret results) elapsed_ms =
      .ret (successJson t2 image_path results elapsed_ms) ∧
    (successJson t1 image_path results elapsed_ms).get "total_objects" =
      some (.num ((keptCandidates t1 results).length)) ∧
    (successJson t2 image_path results elapsed_ms).get "total_objects" =
      some (.num ((keptCandidates t2 results).length)) := by
  refine ⟨?_, detect_success_eq _ _ _ _, detect_success_eq _ _ _ _, rfl, rfl⟩
  rw [keptCandidates, keptCandidates, ← List.countP_eq_length_filter,
    ← List.countP_eq_length_filter]
  refine List.countP_mono_left ?_
  intro c _ hc
  simp only [decide_eq_true_eq] at hc ⊢
  exact le_trans h hc

theorem C7_witness :
    ((0 : ℚ) ≤ 1) ∧
    (keptCandidates 1 [sampleResult]).length ≤
      (keptCandidates 0 [sampleResult]).length :=
  ⟨by norm_num,
   (C7_threshold_antitone [sampleResult] "img.jpg" 0 0 1 (by norm_num)).1⟩

/-- C3 (counterexample): a well-formed `/detect` request whose file
does not exist answers HTTP 500, not 200: the `FileNotFoundError`
escapes `detect` and lands in the route's broad `except`. -/
theorem C3_counterexample :
    (detect_route ⟨some sampleDetector⟩ (.ret sampleDetector)
        (.ret (some [("image_path", "missing.jpg")])) false (.ret []) 0).1 =
      ⟨500, .obj [("success", .bool false),
        ("error",
         .str "Request processing failed: Image not found: missing.jpg")]⟩ :=
  rfl

/-- C3 (amended): with a ready detector and a well-formed body, an
inference failure answers 200 with the failure shape, but a
non-existent file answers 500 (its `FileNotFoundError` escapes
`detect` into the route's broad `except`); the route emits only the
statuses 200, 400 and 500. -/
theorem C3_amended (det : YOLODetector) (fields : List (String × String))
    (image_path : String) (e : PyExn) (infer : PyResult (List YoloResult))
    (elapsed_ms : ℚ) (hip : fields.lookup "image_path" = some image_path) :
    (∀ st construct, (get_detector st construct).1 = .ret det →
      (detect_route st construct (.ret (some fields)) true (.exn e)
          elapsed_ms).1 = ⟨200, failureJson e image_path⟩ ∧
      (detect_route st construct (.ret (some fields)) false infer
          elapsed_ms).1 =
        requestFailedResponse
          (.fileNotFoundError ("Image not found: " ++ image_path))) ∧
    (requestFailedResponse
      (.fileNotFoundError ("Image not found: " ++ image_path))).status = 500 ∧
    (∀ st construct body fe inf t,
      (detect_route st construct body fe inf t).1.status = 200 ∨
      (detect_route st construct body fe inf t).1.status = 400 ∨
      (detect_route st construct body fe inf t).1.status = 500) := by
  refine ⟨?_, rfl, ?_⟩
  · intro st construct hdet
    rw [detect_route_of_ready st construct det hdet,
      detect_route_of_ready st construct det hdet]
    constructor
    · rw [handle_request_with_path det fields image_path true (.exn e)
        elapsed_ms hip, detect_failure_eq]
    · rw [handle_request_with_path det fields image_path false infer
        elapsed_ms hip, detect_not_found]
  · intro st construct body fe inf t
    rw [detect_route]
    split
    · right; right; rfl
    · cases body with
      | exn e₁ => right; right; rfl
      | ret data =>
          rw [handle_request]
          split
          · right; left; rfl
          · split
            · right; left; rfl
            · split
              · left; rfl
              · right; right; rfl

theorem C3_witness :
    [("image_path", "img.jpg")].lookup "image_path" = some "img.jpg" ∧
    (get_detector ⟨some sampleDetector⟩ (.ret sampleDetector)).1 =
      .ret sampleDetector ∧
    (detect_route ⟨some sampleDetector⟩ (.ret sampleDetector)
        (.ret (some [("image_path", "img.jpg")])) true
        (.exn (.other "bad image data")) 0).1 =
      ⟨200, failureJson (.other "bad image data") "img.jpg"⟩ :=
  ⟨rfl, rfl,
   ((C3_amended sampleDetector [("image_path", "img.jpg")] "img.jpg"
      (.other "bad image data") (.ret []) 0 rfl).1
      ⟨some sampleDetector⟩ (.ret sampleDetector) rfl).1⟩

/-- C5 (counterexample): with the singleton uninitialized and a failing
construction, `POST /detect` with body `{}` answers 500, not 400,
because `get_detector()` runs (and raises) before body validation. -/
theorem C5_counterexample :
    (detect_route ⟨none⟩ (.exn (.other "model load failed"))
        (.ret (some [])) true (.ret []) 0).1 =
      ⟨500, .obj [("success", .bool false),
        ("error", .str "Request processing failed: model load failed")]⟩ :=
  rfl

/-- C5 (amended): provided `get_detector()` yields a detector (the
singleton is already initialized, or construction succeeds), a request
whose body is empty or lacks `image_path` answers HTTP 400 with the
exact body, and `Detector.detect` is never invoked: the response does
not depend on the detection oracles. -/
theorem C5_amended (st : ServiceState) (construct : PyResult YOLODetector)
    (det : YOLODetector) (data : Option (List (String × String)))
    (file_exists : Bool) (infer : PyResult (List YoloResult))
    (elapsed_ms : ℚ)
    (hdet : (get_detector st construct).1 = .ret det)
    (hmiss : missingImagePath data = true) :
    (detect_route st construct (.ret data) file_exists infer elapsed_ms).1 =
      missingFieldResponse ∧
    missingFieldResponse =
      ⟨400, .obj [("success", .bool false),
                  ("error", .str "Missing image_path in request")]⟩ ∧
    (∀ fe inf t,
      (detect_route st construct (.ret data) fe inf t).1 =
        missingFieldResponse) := by
  have h1 : ∀ fe inf t,
      (detect_route st construct (.ret data) fe inf t).1 =
        missingFieldResponse := by
    intro fe inf t
    rw [detect_route_of_ready st construct det hdet,
      handle_request_missing det data fe inf t hmiss]
  exact ⟨h1 _ _ _, rfl, h1⟩

theorem C5_witness :
    (get_detector ⟨some sampleDetector⟩ (.ret sampleDetector)).1 =
      .ret sampleDetector ∧
    missingImagePath (some []) = true ∧
    (detect_route ⟨some sampleDetector⟩ (.ret sampleDetector)
        (.ret (some [])) true (.ret []) 0).1 = missingFieldResponse :=
  ⟨rfl, rfl,
   (C5_amended ⟨some sampleDetector⟩ (.ret sampleDetector) sampleDetector
      (some []) true (.ret []) 0 rfl rfl).1⟩

/-- C8: `GET /health` always answers 200 with
`{status, service, model_loaded}`, with `model_loaded` true exactly
when the singleton is non-null at the time of the call, and leaves the
singleton unchanged (no lazy initialization is triggered). -/
theorem C8_health_check (st : ServiceState) :
    health_check st =
      (⟨200, .obj [("status", .str "healthy"),
                   ("service", .str "yolo-detection-service"),
                   ("model_loaded", .bool st.detector.isSome)]⟩, st) ∧
    (health_check st).2 = st ∧
    ((health_check st).1.body.get "model_loaded" = some (.bool true) ↔
      st.detector ≠ none) := by
  obtain ⟨d⟩ := st
  refine ⟨rfl, rfl, ?_⟩
  cases d with
  | none =>
      rw [show (health_check ⟨none⟩).1.body.get "model_loaded" =
        some (.bool false) from rfl]
      simp
  | some det =>
      rw [show (health_check ⟨some det⟩).1.body.get "model_loaded" =
        some (.bool true) from rfl]
      simp

/-- C9: the lazy guard preserves the lifecycle invariant: a failed
construction leaves the singleton `None` and the next call retries
(no negative caching); a successful construction is cached, and every
later call returns the same instance without reconstructing; the state
never transitions back from ready. -/
theorem C9_lazy_guard (d : YOLODetector) (e : PyExn)
    (c : PyResult YOLODetector) :
    get_detector ⟨none⟩ (.exn e) = (.exn e, ⟨none⟩) ∧
    get_detector (get_detector ⟨none⟩ (.exn e)).2 (.ret d) =
      (.ret d, ⟨some d⟩) ∧
    get_detector ⟨some d⟩ c = (.ret d, ⟨some d⟩) ∧
    get_detector ⟨none⟩ (.ret d) = (.ret d, ⟨some d⟩) ∧
    get_detector (get_detector ⟨none⟩ (.ret d)).2 c = (.ret d, ⟨some d⟩) :=
  ⟨rfl, rfl, rfl, rfl, rfl⟩

/-- C10: the route calls `get_detector()` before validating the body:
with the singleton uninitialized, a request lacking `image_path` still
triggers construction (the state ends up initialized), and if
construction raises the answer is the 500 request-processing failure,
not the 400 missing-field response. -/
theorem C10_init_before_validation (d : YOLODetector) (e : PyExn)
    (data : Option (List (String × String))) (file_exists : Bool)
    (infer : PyResult (List YoloResult)) (elapsed_ms : ℚ)
    (hmiss : missingImagePath data = true) :
    (detect_route ⟨none⟩ (.exn e) (.ret data) file_exists infer
        elapsed_ms).1 = requestFailedResponse e ∧
    (requestFailedResponse e).status = 500 ∧
    (detect_route ⟨none⟩ (.ret d) (.ret data) file_exists infer
        elapsed_ms).2 = ⟨some d⟩ ∧
    (detect_route ⟨none⟩ (.ret d) (.ret data) file_exists infer
        elapsed_ms).1 = missingFieldResponse := by
  refine ⟨rfl, rfl, rfl, ?_⟩
  rw [detect_route_of_ready ⟨none⟩ (.ret d) d rfl,
    handle_request_missing d data file_exists infer elapsed_ms hmiss]

theorem C10_witness :
    missingImagePath (some []) = true ∧
    (detect_route ⟨none⟩ (.exn (.other "model load failed"))
        (.ret (some [])) true (.ret []) 0).1 =
      requestFailedResponse (.other "model load failed") :=
  ⟨rfl,
   (C10_init_before_validation sampleDetector (.other "model load failed")
      (some []) true (.ret []) 0 rfl).1⟩
